import Mathlib

/-!
Verification of the ensemble anomaly-scoring and forecasting engine
(`python-backend/src/services/anomaly_detector.py`).

The embedding translates the numeric pipeline into Lean over `ℝ`:
numpy reductions (`np.mean`, `np.var`, `np.std`, `np.diff`) become list
statistics, Python dictionaries become association lists or total
functions with the source defaults, exceptions raised by external
collaborators become `Except` values, and `try/except` blocks become
pattern matches on those values.
-/

namespace SreAgent

/-! ### Numpy-style list statistics -/

/-- Embedding of `np.mean` (population mean).  On the empty list Lean's
division by zero yields `0`, mirroring the fact that the source never
reaches the mean of an empty list on a live path. -/
noncomputable def npMean (xs : List ℝ) : ℝ := xs.sum / xs.length

/-- Embedding of `np.var` (population variance, `ddof = 0`). -/
noncomputable def npVar (xs : List ℝ) : ℝ :=
  ((xs.map (fun x => (x - npMean xs) ^ 2)).sum) / xs.length

/-- Embedding of `np.std` (population standard deviation). -/
noncomputable def npStd (xs : List ℝ) : ℝ := Real.sqrt (npVar xs)

/-- Embedding of `np.diff`: first differences `x[i+1] - x[i]`. -/
def npDiff (xs : List ℝ) : List ℝ := List.zipWith (fun a b => a - b) xs.tail xs

/-- Embedding of Python slicing `xs[-n:]`: the last `n` elements (all of
them when the list is shorter than `n`). -/
def takeLast {α : Type} (n : ℕ) (xs : List α) : List α := xs.drop (xs.length - n)

/-! ### Thresholds and severity (`self.thresholds`, `_determine_severity`) -/

structure Thresholds where
  warning : ℝ
  critical : ℝ

/-- The `self.thresholds` dictionary from `AnomalyDetector.__init__`. -/
noncomputable def thresholds (metric : String) : Option Thresholds :=
  if metric = "cpu" then some ⟨0.7, 0.9⟩
  else if metric = "memory" then some ⟨0.75, 0.9⟩
  else if metric = "disk" then some ⟨0.8, 0.95⟩
  else if metric = "network" then some ⟨0.6, 0.8⟩
  else if metric = "response_time" then some ⟨0.65, 0.85⟩
  else none

/-- `self.thresholds.get(metric_name, {}).get('warning', 0.7)` as used in
`detect_anomalies` for the `is_anomaly` decision. -/
noncomputable def warningThreshold (metric : String) : ℝ :=
  ((thresholds metric).map Thresholds.warning).getD 0.7

/-- `self.thresholds.get(metric_name, {'warning': 0.7, 'critical': 0.9})`
as used in `_determine_severity`. -/
noncomputable def severityThresholds (metric : String) : Thresholds :=
  (thresholds metric).getD ⟨0.7, 0.9⟩

/-- Embedding of `AnomalyDetector._determine_severity`. -/
noncomputable def determineSeverity (metric : String) (score : ℝ) : String :=
  let th := severityThresholds metric
  if th.critical ≤ score then "critical"
  else if th.warning ≤ score then "warning"
  else "info"

/-! ### The statistical ("transformer") model
(`AnomalyDetector._transformer_anomaly_detection`) -/

/-- Embedding of `_transformer_anomaly_detection`: z-score of each point
against the whole series, squashed by `tanh(z / 3)`. -/
noncomputable def transformerAnomalyDetection (data : List ℝ) : List ℝ :=
  let mean_val := npMean data
  let std_val := npStd data
  data.map (fun x => Real.tanh (|x - mean_val| / (std_val + 1e-8) / 3))

/-! ### Ensemble (`_run_ensemble_detection`) -/

/-- One entry of the list built by `_run_ensemble_detection`:
`{'model': ..., 'scores': ..., 'weight': ...}`. -/
structure Vote where
  model : String
  scores : List ℝ
  weight : ℝ

/-- The external scoring models (`sklearn` / `pyod` objects).  Their
`decision_function` calls live outside this repository, so they are
abstract score functions that may raise (`Except.error`). -/
structure ClassicalModels where
  isoForest : List ℝ → Except String (List ℝ)
  autoencoder : List ℝ → Except String (List ℝ)
  vae : List ℝ → Except String (List ℝ)

/-- Embedding of `_run_ensemble_detection`.  The source appends votes one
by one inside a `try` block; an exception from any model call is caught
at the end of the block, so the votes appended before the failure are
kept and returned.  Isolation-forest scores are negated
(`'scores': -iso_scores`); the VAE vote is tagged `"v ae"`, reproducing
the literal string in the source. -/
noncomputable def runEnsembleDetection (m : ClassicalModels) (data : List ℝ) : List Vote :=
  match m.isoForest data with
  | .error _ => []
  | .ok iso =>
    let v1 : Vote := ⟨"isolation_forest", iso.map (fun s => -s), 0.3⟩
    match m.autoencoder data with
    | .error _ => [v1]
    | .ok ae =>
      let v2 : Vote := ⟨"autoencoder", ae, 0.3⟩
      match m.vae data with
      | .error _ => [v1, v2]
      | .ok vs =>
        let v3 : Vote := ⟨"v ae", vs, 0.2⟩
        let v4 : Vote := ⟨"transformer", transformerAnomalyDetection data, 0.2⟩
        [v1, v2, v3, v4]

/-- The per-model scores at one index:
`[result['scores'][i] for result in ensemble_results]`. -/
noncomputable def scoresAt (votes : List Vote) (i : ℕ) : List ℝ :=
  votes.map (fun v => v.scores.getD i 0)

/-- The combined anomaly score at index `i`:
`np.mean([result['scores'][i] for result in ensemble_results])`. -/
noncomputable def combinedScore (votes : List Vote) (i : ℕ) : ℝ :=
  npMean (scoresAt votes i)

/-- Embedding of `_calculate_confidence`: inverse of (one plus) the
cross-model variance at the index, clamped by `min(confidence, 1.0)`. -/
noncomputable def calculateConfidence (votes : List Vote) (i : ℕ) : ℝ :=
  min (1 / (1 + npVar (scoresAt votes i))) 1

/-! ### Narration (`_generate_description`, `_generate_recommendations`) -/

/-- Embedding of `_generate_description`: template selection keyed by the
metric name with a generic fallback.  The numeric f-string interpolation
of `value` and `score` is elided (string formatting of floats is outside
the numeric model); the chosen template is kept. -/
def generateDescription (metric : String) (_value _score : ℝ) : String :=
  if metric = "cpu" then "CPU usage anomaly detected"
  else if metric = "memory" then "Memory usage anomaly detected"
  else if metric = "disk" then "Disk usage anomaly detected"
  else if metric = "network" then "Network I/O anomaly detected"
  else if metric = "response_time" then "Response time anomaly detected"
  else "Anomaly detected"

/-- Embedding of `_generate_recommendations`: fixed list per metric,
generic fallback, and an urgent marker prepended when severity is
`critical`. -/
def generateRecommendations (metric : String) (_value : ℝ) (severity : String) :
    List String :=
  let base :=
    if metric = "cpu" then
      ["Check for runaway processes", "Consider scaling up instances",
       "Review recent deployments", "Monitor application performance"]
    else if metric = "memory" then
      ["Check for memory leaks", "Review application memory usage",
       "Consider increasing instance memory", "Restart affected services if necessary"]
    else if metric = "disk" then
      ["Clean up temporary files", "Archive old logs", "Check for large files",
       "Consider adding storage capacity"]
    else if metric = "network" then
      ["Check network connectivity", "Review bandwidth usage",
       "Monitor for DDoS attacks", "Verify load balancer configuration"]
    else if metric = "response_time" then
      ["Check database performance", "Review application logs",
       "Monitor external dependencies", "Consider caching strategies"]
    else ["Investigate the anomaly"]
  if severity = "critical" then "IMMEDIATE ACTION REQUIRED" :: base else base

/-! ### `detect_anomalies` -/

/-- The `AnomalyResult` dataclass.  Timestamps are modelled as natural
numbers (abstract time-units). -/
structure AnomalyResult where
  timestamp : ℕ
  metric_name : String
  value : ℝ
  is_anomaly : Bool
  anomaly_score : ℝ
  confidence : ℝ
  severity : String
  description : String
  recommendations : List String

/-- Embedding of `AnomalyDetector.detect_anomalies`.  The preprocessor
(`utils.data_preprocessor.TimeSeriesPreprocessor.preprocess_time_series`)
is an external collaborator and is passed in as a fallible function.
A failure anywhere in the body is caught by the outer `except`, which
returns the empty list; the preprocessor is the modelled failure point.
`zip(values, timestamps)` truncates to the shorter input, as in Python. -/
noncomputable def detectAnomalies (pre : List ℝ → Except String (List ℝ))
    (m : ClassicalModels) (metric : String) (values : List ℝ)
    (timestamps : List ℕ) : List AnomalyResult :=
  if values.length < 10 then []
  else
    match pre values with
    | .error _ => []
    | .ok processed =>
      let votes := runEnsembleDetection m processed
      ((values.zip timestamps).enum).filterMap (fun p =>
        let score := combinedScore votes p.1
        if warningThreshold metric < score then
          some
            { timestamp := p.2.2
              metric_name := metric
              value := p.2.1
              is_anomaly := true
              anomaly_score := score
              confidence := calculateConfidence votes p.1
              severity := determineSeverity metric score
              description := generateDescription metric p.2.1 score
              recommendations :=
                generateRecommendations metric p.2.1 (determineSeverity metric score) }
        else none)

/-! ### Rolling buffers (`_update_models`) -/

/-- `self.buffer_size` from `AnomalyDetector.__init__`. -/
def bufferSize : ℕ := 1000

/-- One metric's buffer update inside `_update_models`:
`extend(values)` followed by truncation to the last `buffer_size`
elements when the length exceeds `buffer_size`. -/
def updateBuffer {α : Type} (buf : List α) (values : List α) : List α :=
  let b := buf ++ values
  if bufferSize < b.length then b.drop (b.length - bufferSize) else b

/-- Repeated buffer updates starting from the empty buffer created by
`_load_historical_data`, one `updateBuffer` per detection cycle. -/
def insertBatches {α : Type} (batches : List (List α)) : List α :=
  batches.foldl updateBuffer []

/-- Per-cycle metric payload: `{'values': ..., 'timestamps': ...}`. -/
structure MetricData where
  values : List ℝ
  timestamps : List ℕ

/-- The orchestrator state the cycle mutates: the `self.data_buffer`
dictionary, as an association list. -/
structure CycleState where
  buffers : List (String × List ℝ)

/-- Embedding of `_update_models`: for every metric present in the buffer
dictionary, extend its buffer with this cycle's values and truncate. -/
def updateModels (buffers : List (String × List ℝ))
    (metrics : List (String × MetricData)) : List (String × List ℝ) :=
  buffers.map (fun b =>
    match metrics.lookup b.1 with
    | some md => (b.1, updateBuffer b.2 md.values)
    | none => b)

/-- Embedding of `run_detection_cycle`.  The collection call
(`metrics_collector.collect_all_metrics`) is external and fallible; the
outer `try/except` catches its failure, abandoning the cycle with the
state unchanged.  On success the cycle scores every metric and then
advances the buffers with `updateModels`.  (`_process_anomalies` only
talks to external collaborators and mutates no core state.) -/
noncomputable def runDetectionCycle
    (collect : Except String (List (String × MetricData)))
    (pre : List ℝ → Except String (List ℝ)) (m : ClassicalModels)
    (st : CycleState) : CycleState × List AnomalyResult :=
  match collect with
  | .error _ => (st, [])
  | .ok metrics =>
    let anomalies :=
      metrics.flatMap (fun md => detectAnomalies pre m md.1 md.2.values md.2.timestamps)
    (⟨updateModels st.buffers metrics⟩, anomalies)

/-! ### Forecasting (`predict_future_anomalies`) -/

/-- The `ModelPrediction` dataclass, one record per horizon step.  The
timestamp `datetime.now() + timedelta(hours=h)` is modelled as the
offset `h` itself. -/
structure ModelPrediction where
  predicted_value : ℝ
  confidence_interval : ℝ × ℝ
  anomaly_score : ℝ
  model_name : String
  timestamp : ℕ

/-- Embedding of `_calculate_prediction_anomaly_score`. -/
noncomputable def predictionAnomalyScore (predicted : ℝ) (hist : List ℝ) : ℝ :=
  Real.tanh (|predicted - npMean hist| / (npStd hist + 1e-8) / 3)

/-- Embedding of `predict_future_anomalies` for one metric, given that
metric's buffer.  `recent_data = buffer[-100:]`; for each horizon step
`h = 1..horizon` the source guards on `len(recent_data) >= 10` (constant
across the loop) and builds a linear-trend prediction.  `recent_data[-1]`
is the element at index `len - 1`. -/
noncomputable def predictFutureAnomalies (buffer : List ℝ) (horizon : ℕ) :
    List ModelPrediction :=
  if buffer.length < 50 then []
  else
    let recent := takeLast 100 buffer
    if 10 ≤ recent.length then
      (List.range horizon).map (fun h0 =>
        let h : ℕ := h0 + 1
        let trend := npMean (npDiff (takeLast 10 recent))
        let predicted := recent.getD (recent.length - 1) 0 + trend * h
        let std := npStd (takeLast 20 recent)
        { predicted_value := predicted
          confidence_interval := (predicted - 2 * std, predicted + 2 * std)
          anomaly_score := predictionAnomalyScore predicted recent
          model_name := "linear_trend"
          timestamp := h })
    else []

/-- Written from the specification text of C8, for comparison with the
source embedding: the prediction anomaly score computed against the
metric's **entire** rolling buffer. -/
noncomputable def claimedPredictionScore (buffer : List ℝ) (predicted : ℝ) : ℝ :=
  Real.tanh (|predicted - npMean buffer| / (npStd buffer + 1e-8) / 3)

/-- A buffer of `n` linearly increasing values with first value `a` and
constant first difference `c` (instrumentation for the forecast claim). -/
noncomputable def affBuf (a c : ℝ) (n : ℕ) : List ℝ :=
  (List.range n).map (fun i : ℕ => a + c * (i : ℝ))

instance : Inhabited AnomalyResult :=
  ⟨⟨0, "", 0, false, 0, 0, "", "", []⟩⟩

/-! ### Concrete test fixtures -/

/-- A ten-point constant test series. -/
def tenFives : List ℝ := [5, 5, 5, 5, 5, 5, 5, 5, 5, 5]

def negOnes : List ℝ := [-1, -1, -1, -1, -1, -1, -1, -1, -1, -1]

def tenOnes : List ℝ := [1, 1, 1, 1, 1, 1, 1, 1, 1, 1]

noncomputable def fourFifths : List ℝ :=
  [4 / 5, 4 / 5, 4 / 5, 4 / 5, 4 / 5, 4 / 5, 4 / 5, 4 / 5, 4 / 5, 4 / 5]

/-- Test models whose combined score with the statistical model lands
exactly on the 0.7 warning threshold of metric `cpu`. -/
noncomputable def mBoundary : ClassicalModels :=
  ⟨fun _ => Except.ok negOnes, fun _ => Except.ok tenOnes,
   fun _ => Except.ok fourFifths⟩

/-- Test models whose combined score exceeds the warning threshold. -/
def mEmit : ClassicalModels :=
  ⟨fun _ => Except.ok negOnes, fun _ => Except.ok tenOnes,
   fun _ => Except.ok tenOnes⟩

/-- Test models whose VAE call fails after the first two models
succeeded. -/
def mVaeFails : ClassicalModels :=
  ⟨fun _ => Except.ok negOnes, fun _ => Except.ok tenOnes,
   fun _ => Except.error "vae failure"⟩

/-- One hundred zeros, preceded by the outlier 100 in the forecast
counterexample buffer. -/
def zeros100 : List ℝ := List.replicate 100 0

/-! ### Helper lemmas -/

lemma sre_tanh_nonneg {x : ℝ} (hx : 0 ≤ x) : 0 ≤ Real.tanh x := by
  rw [Real.tanh_eq_sinh_div_cosh]
  exact div_nonneg (Real.sinh_nonneg_iff.mpr hx) (Real.cosh_pos x).le

lemma sre_tanh_lt_one (x : ℝ) : Real.tanh x < 1 := by
  rw [Real.tanh_eq_sinh_div_cosh]
  exact (div_lt_one (Real.cosh_pos x)).mpr (Real.sinh_lt_cosh x)

lemma sre_tanh_pos {x : ℝ} (hx : 0 < x) : 0 < Real.tanh x := by
  rw [Real.tanh_eq_sinh_div_cosh]
  exact div_pos (Real.sinh_pos_iff.mpr hx) (Real.cosh_pos x)

lemma npVar_nonneg (xs : List ℝ) : 0 ≤ npVar xs := by
  unfold npVar
  refine div_nonneg (List.sum_nonneg ?_) (by positivity)
  intro x hx
  obtain ⟨y, _, rfl⟩ := List.mem_map.mp hx
  positivity

lemma npStd_nonneg (xs : List ℝ) : 0 ≤ npStd xs := Real.sqrt_nonneg _

/-! ### Claims -/

/-- C3: the statistical ("transformer") model's raw score at each point
`x` equals `tanh(z / 3)` with `z = |x - mean| / (std + 1e-8)`, where mean
and standard deviation are taken over the whole series; consequently
every raw score of this model lies in `[0, 1)`. -/
theorem transformer_score_formula_range (data : List ℝ) (i : ℕ)
    (hi : i < data.length) :
    (transformerAnomalyDetection data).getD i 0 =
      Real.tanh (|data.getD i 0 - npMean data| / (npStd data + 1e-8) / 3) ∧
    0 ≤ (transformerAnomalyDetection data).getD i 0 ∧
    (transformerAnomalyDetection data).getD i 0 < 1 := by
  have hlen : i < (transformerAnomalyDetection data).length := by
    simpa [transformerAnomalyDetection] using hi
  have hval : (transformerAnomalyDetection data).getD i 0 =
      Real.tanh (|data.getD i 0 - npMean data| / (npStd data + 1e-8) / 3) := by
    rw [List.getD_eq_getElem _ _ hlen, List.getD_eq_getElem _ _ hi]
    simp [transformerAnomalyDetection]
  have harg : 0 ≤ |data.getD i 0 - npMean data| / (npStd data + 1e-8) / 3 := by
    have hd : (0 : ℝ) < npStd data + 1e-8 := by
      have := npStd_nonneg data
      norm_num
      linarith
    positivity
  exact ⟨hval, hval ▸ sre_tanh_nonneg harg, hval ▸ sre_tanh_lt_one _⟩

/-- Witness for C3 at the concrete series `[5, 5, 5]`, index 0. -/
theorem transformer_score_formula_range_witness :
    0 < ([5, 5, 5] : List ℝ).length ∧
    ((transformerAnomalyDetection [5, 5, 5]).getD 0 0 =
      Real.tanh (|([5, 5, 5] : List ℝ).getD 0 0 - npMean [5, 5, 5]| /
        (npStd [5, 5, 5] + 1e-8) / 3) ∧
    0 ≤ (transformerAnomalyDetection [5, 5, 5]).getD 0 0 ∧
    (transformerAnomalyDetection [5, 5, 5]).getD 0 0 < 1) :=
  ⟨by simp, transformer_score_formula_range [5, 5, 5] 0 (by simp)⟩

/-- C4: for every metric name and every input series with fewer than 10
values, `detect_anomalies` returns the empty list (and, being a total
function of its inputs, surfaces no error to its caller). -/
theorem detect_short_series_empty (pre : List ℝ → Except String (List ℝ))
    (m : ClassicalModels) (metric : String) (values : List ℝ)
    (timestamps : List ℕ) (h : values.length < 10) :
    detectAnomalies pre m metric values timestamps = [] := by
  simp [detectAnomalies, h]

/-- Witness for C4 at a concrete three-point series. -/
theorem detect_short_series_empty_witness :
    ([1, 2, 3] : List ℝ).length < 10 ∧
    detectAnomalies (fun v => Except.ok v)
      ⟨fun _ => Except.ok [], fun _ => Except.ok [], fun _ => Except.ok []⟩
      "cpu" [1, 2, 3] [0, 1, 2] = [] :=
  ⟨by simp, detect_short_series_empty _ _ _ _ _ (by simp)⟩

/-- C5: the confidence at an index equals `1 / (1 + variance)` of the
per-model scores there, clamped to a maximum of `1.0`; it always lies in
`(0, 1]`, and zero variance yields confidence exactly `1.0`. -/
theorem confidence_formula_range (votes : List Vote) (i : ℕ) :
    calculateConfidence votes i =
      min (1 / (1 + npVar (scoresAt votes i))) 1 ∧
    0 < calculateConfidence votes i ∧
    calculateConfidence votes i ≤ 1 ∧
    (npVar (scoresAt votes i) = 0 → calculateConfidence votes i = 1) := by
  have hv : 0 ≤ npVar (scoresAt votes i) := npVar_nonneg _
  have hpos : 0 < 1 / (1 + npVar (scoresAt votes i)) := by
    have : (0 : ℝ) < 1 + npVar (scoresAt votes i) := by linarith
    positivity
  refine ⟨rfl, ?_, ?_, ?_⟩
  · exact lt_min hpos one_pos
  · exact min_le_right _ _
  · intro h0
    simp [calculateConfidence, h0]

/-- Witness for C5: two models in perfect agreement (both score `1/2`)
give zero variance and confidence exactly `1`. -/
theorem confidence_formula_range_witness :
    npVar (scoresAt [⟨"a", [1 / 2], 1⟩, ⟨"b", [1 / 2], 1⟩] 0) = 0 ∧
    calculateConfidence [⟨"a", [1 / 2], 1⟩, ⟨"b", [1 / 2], 1⟩] 0 = 1 := by
  have h0 : npVar (scoresAt [⟨"a", [1 / 2], 1⟩, ⟨"b", [1 / 2], 1⟩] 0) = 0 := by
    norm_num [npVar, npMean, scoresAt]
  exact ⟨h0, (confidence_formula_range [⟨"a", [1 / 2], 1⟩, ⟨"b", [1 / 2], 1⟩] 0).2.2.2 h0⟩

lemma updateBuffer_eq_takeLast {α : Type} (buf vs : List α) :
    updateBuffer buf vs = takeLast bufferSize (buf ++ vs) := by
  simp only [updateBuffer, takeLast]
  split
  · rfl
  · next h => rw [Nat.sub_eq_zero_of_le (le_of_not_lt h), List.drop_zero]

lemma takeLast_append_takeLast {α : Type} (C : ℕ) (a b : List α) :
    takeLast C (takeLast C a ++ b) = takeLast C (a ++ b) := by
  unfold takeLast
  have hx : List.drop (a.length - C) a ++ b = (a ++ b).drop (a.length - C) := by
    rw [List.drop_append_eq_append_drop,
      Nat.sub_eq_zero_of_le (Nat.sub_le _ _), List.drop_zero]
  rw [hx, List.drop_drop]
  congr 1
  simp only [List.length_drop, List.length_append]
  omega

lemma foldl_updateBuffer {α : Type} (batches : List (List α)) (xs : List α) :
    batches.foldl updateBuffer (takeLast bufferSize xs) =
      takeLast bufferSize (xs ++ batches.flatten) := by
  induction batches generalizing xs with
  | nil => simp
  | cons b bs ih =>
    rw [List.foldl_cons, updateBuffer_eq_takeLast, takeLast_append_takeLast, ih,
      List.flatten_cons, ← List.append_assoc]

lemma insertBatches_eq_takeLast {α : Type} (batches : List (List α)) :
    insertBatches batches = takeLast bufferSize batches.flatten := by
  unfold insertBatches
  have h0 : takeLast bufferSize ([] : List α) = [] := by simp [takeLast]
  rw [← h0, foldl_updateBuffer, List.nil_append]

/-- C6: after any sequence of buffer updates starting from the empty
buffer, the buffer length never exceeds the capacity `C = 1000`; a single
update also never leaves more than `C` elements; and once the total
number of inserted values reaches `C + k`, the buffer holds exactly the
last `C` inserted values in their original insertion order (the suffix of
the concatenated insertion stream). -/
theorem rolling_buffer_invariant {α : Type} (batches : List (List α)) :
    (insertBatches batches).length ≤ bufferSize ∧
    (∀ buf vs : List α, (updateBuffer buf vs).length ≤ bufferSize) ∧
    (bufferSize ≤ batches.flatten.length →
      insertBatches batches =
        batches.flatten.drop (batches.flatten.length - bufferSize)) := by
  refine ⟨?_, ?_, ?_⟩
  · rw [insertBatches_eq_takeLast]
    unfold takeLast
    rw [List.length_drop]
    omega
  · intro buf vs
    simp only [updateBuffer]
    split
    · next h => rw [List.length_drop]; omega
    · next h =>
      simp only [not_lt] at h
      simpa using h
  · intro _
    rw [insertBatches_eq_takeLast]
    rfl

/-- Witness for C6: inserting 1001 values into capacity 1000 keeps
exactly the last 1000 of them. -/
theorem rolling_buffer_invariant_witness :
    bufferSize ≤ ([List.replicate 1001 (0 : ℕ)].flatten).length ∧
    insertBatches [List.replicate 1001 (0 : ℕ)] =
      ([List.replicate 1001 (0 : ℕ)].flatten).drop
        (([List.replicate 1001 (0 : ℕ)].flatten).length - bufferSize) :=
  ⟨by norm_num [bufferSize],
   (rolling_buffer_invariant [List.replicate 1001 (0 : ℕ)]).2.2
     (by norm_num [bufferSize])⟩

/-- C2: when all ensemble models produce scores, the combined anomaly
score at every index is the unweighted arithmetic mean of the four
models' raw scores there; the declared per-model weights are
`[0.3, 0.3, 0.2, 0.2]` but replacing them by arbitrary values leaves the
combined score unchanged. -/
theorem ensemble_unweighted_mean (m : ClassicalModels) (data : List ℝ)
    (i : ℕ) (iso ae vs : List ℝ) (h1 : m.isoForest data = Except.ok iso)
    (h2 : m.autoencoder data = Except.ok ae)
    (h3 : m.vae data = Except.ok vs) :
    (runEnsembleDetection m data).map Vote.weight = [0.3, 0.3, 0.2, 0.2] ∧
    combinedScore (runEnsembleDetection m data) i =
      ((iso.map (fun s => -s)).getD i 0 + ae.getD i 0 + vs.getD i 0 +
        (transformerAnomalyDetection data).getD i 0) / 4 ∧
    (∀ w : Vote → ℝ,
      combinedScore
        ((runEnsembleDetection m data).map (fun v => ⟨v.model, v.scores, w v⟩)) i =
        combinedScore (runEnsembleDetection m data) i) := by
  have he : runEnsembleDetection m data =
      [⟨"isolation_forest", iso.map (fun s => -s), 0.3⟩,
       ⟨"autoencoder", ae, 0.3⟩, ⟨"v ae", vs, 0.2⟩,
       ⟨"transformer", transformerAnomalyDetection data, 0.2⟩] := by
    simp [runEnsembleDetection, h1, h2, h3]
  refine ⟨by rw [he]; rfl, ?_, ?_⟩
  · rw [he]
    simp [combinedScore, scoresAt, npMean]
    ring
  · intro w
    simp only [combinedScore, scoresAt, List.map_map]
    congr 1

/-- Witness for C2 with three constant external models on a ten-point
constant series. -/
theorem ensemble_unweighted_mean_witness :
    (⟨fun _ => Except.ok (List.replicate 10 (-1 : ℝ)),
      fun _ => Except.ok (List.replicate 10 (1 : ℝ)),
      fun _ => Except.ok (List.replicate 10 (1 : ℝ))⟩ :
        ClassicalModels).isoForest (List.replicate 10 (5 : ℝ)) =
      Except.ok (List.replicate 10 (-1 : ℝ)) ∧
    combinedScore
      (runEnsembleDetection
        ⟨fun _ => Except.ok (List.replicate 10 (-1 : ℝ)),
         fun _ => Except.ok (List.replicate 10 (1 : ℝ)),
         fun _ => Except.ok (List.replicate 10 (1 : ℝ))⟩
        (List.replicate 10 (5 : ℝ))) 0 =
      (((List.replicate 10 (-1 : ℝ)).map (fun s => -s)).getD 0 0 +
        (List.replicate 10 (1 : ℝ)).getD 0 0 +
        (List.replicate 10 (1 : ℝ)).getD 0 0 +
        (transformerAnomalyDetection (List.replicate 10 (5 : ℝ))).getD 0 0) / 4 :=
  ⟨rfl,
   (ensemble_unweighted_mean _ (List.replicate 10 (5 : ℝ)) 0 _ _ _
      rfl rfl rfl).2.1⟩

lemma severityThresholds_warning (metric : String) :
    (severityThresholds metric).warning = warningThreshold metric := by
  simp only [severityThresholds, warningThreshold, thresholds]
  split_ifs <;> rfl

lemma detectAnomalies_ok (pre : List ℝ → Except String (List ℝ))
    (m : ClassicalModels) (metric : String) (values : List ℝ)
    (timestamps : List ℕ) (data : List ℝ) (hlen : ¬ values.length < 10)
    (hpre : pre values = Except.ok data) :
    detectAnomalies pre m metric values timestamps =
      ((values.zip timestamps).enum).filterMap (fun p =>
        if warningThreshold metric <
            combinedScore (runEnsembleDetection m data) p.1 then
          some
            { timestamp := p.2.2
              metric_name := metric
              value := p.2.1
              is_anomaly := true
              anomaly_score := combinedScore (runEnsembleDetection m data) p.1
              confidence := calculateConfidence (runEnsembleDetection m data) p.1
              severity := determineSeverity metric
                (combinedScore (runEnsembleDetection m data) p.1)
              description := generateDescription metric p.2.1
                (combinedScore (runEnsembleDetection m data) p.1)
              recommendations := generateRecommendations metric p.2.1
                (determineSeverity metric
                  (combinedScore (runEnsembleDetection m data) p.1)) }
        else none) := by
  unfold detectAnomalies
  rw [if_neg hlen, hpre]

/-- C1 (amended): every emitted `AnomalyResult` has `is_anomaly = true`
and a combined score **strictly greater** than the metric's warning
threshold (default 0.7 for unknown metrics); its severity is `critical`
when the score reaches the critical threshold and `warning` otherwise,
so `info` is never emitted. -/
theorem detect_severity_strict_threshold (pre : List ℝ → Except String (List ℝ))
    (m : ClassicalModels) (metric : String) (values : List ℝ)
    (timestamps : List ℕ) (r : AnomalyResult)
    (hr : r ∈ detectAnomalies pre m metric values timestamps) :
    r.is_anomaly = true ∧
    warningThreshold metric < r.anomaly_score ∧
    r.severity = determineSeverity metric r.anomaly_score ∧
    ((severityThresholds metric).critical ≤ r.anomaly_score →
      r.severity = "critical") ∧
    (r.anomaly_score < (severityThresholds metric).critical →
      r.severity = "warning") ∧
    r.severity ≠ "info" := by
  by_cases hlen : values.length < 10
  · simp [detectAnomalies, hlen] at hr
  · cases hpre : pre values with
    | error e => simp [detectAnomalies, hlen, hpre] at hr
    | ok data =>
      rw [detectAnomalies_ok pre m metric values timestamps data hlen hpre] at hr
      rw [List.mem_filterMap] at hr
      obtain ⟨p, _, hfp⟩ := hr
      split at hfp
      · next hscore =>
        rw [Option.some.injEq] at hfp
        subst hfp
        refine ⟨rfl, hscore, rfl, ?_, ?_, ?_⟩
        · intro hcrit
          simp only [determineSeverity]
          rw [if_pos hcrit]
        · intro hlt
          simp only [determineSeverity]
          rw [if_neg (not_le.mpr hlt),
            if_pos (by rw [severityThresholds_warning]; exact hscore.le)]
        · simp only [determineSeverity]
          split
          · simp
          · split
            · simp
            · next h2 =>
              rw [severityThresholds_warning] at h2
              exact absurd hscore.le h2
      · exact absurd hfp (by simp)

lemma npMean_tenFives : npMean tenFives = 5 := by
  norm_num [npMean, tenFives]

lemma npStd_tenFives : npStd tenFives = 0 := by
  have h : npVar tenFives = 0 := by
    simp only [npVar, npMean_tenFives]
    norm_num [tenFives]
  simp [npStd, h]

lemma transformer_tenFives :
    transformerAnomalyDetection tenFives = [0, 0, 0, 0, 0, 0, 0, 0, 0, 0] := by
  simp only [transformerAnomalyDetection, npMean_tenFives, npStd_tenFives]
  norm_num [tenFives, Real.tanh_zero]

lemma warningThreshold_cpu : warningThreshold "cpu" = 7 / 10 := by
  norm_num [warningThreshold, thresholds]

lemma boundary_score :
    combinedScore (runEnsembleDetection mBoundary tenFives) 0 = 7 / 10 := by
  simp [combinedScore, scoresAt, runEnsembleDetection, mBoundary,
    transformer_tenFives, npMean, negOnes, tenOnes, fourFifths]
  norm_num

lemma emit_score :
    combinedScore (runEnsembleDetection mEmit tenFives) 0 = 3 / 4 := by
  simp [combinedScore, scoresAt, runEnsembleDetection, mEmit,
    transformer_tenFives, npMean, negOnes, tenOnes]
  norm_num

/-- Counterexample to C1 as stated: a point whose combined score is
**exactly** the warning threshold (0.7 for metric `cpu`) is not flagged,
because the source uses a strict `>` for `is_anomaly`; the claim's
`score ≥ warning` would flag it and emit it. -/
theorem detect_threshold_boundary_cex :
    combinedScore (runEnsembleDetection mBoundary tenFives) 0 =
      warningThreshold "cpu" ∧
    detectAnomalies (fun v => Except.ok v) mBoundary "cpu" tenFives [0] = [] := by
  constructor
  · rw [boundary_score, warningThreshold_cpu]
  · rw [detectAnomalies_ok _ _ _ _ _ tenFives (by norm_num [tenFives]) rfl]
    have hz : ((tenFives.zip [0]).enum) = [(0, ((5 : ℝ), (0 : ℕ)))] := rfl
    rw [hz]
    simp only [List.filterMap_cons, List.filterMap_nil]
    rw [if_neg (by rw [boundary_score, warningThreshold_cpu]; exact lt_irrefl _)]

/-- Witness for the amended C1: with models voting `[1, 1, 1, 0]` on a
constant series (combined score `3/4 > 0.7`), detection over metric
`cpu` emits a nonempty result list and every emitted result is flagged
with a non-info severity. -/
theorem detect_severity_strict_threshold_witness :
    detectAnomalies (fun v => Except.ok v) mEmit "cpu" tenFives [0] ≠ [] ∧
    (detectAnomalies (fun v => Except.ok v) mEmit "cpu" tenFives [0]).all
      (fun r => r.is_anomaly && !(r.severity == "info")) = true := by
  have hcond : warningThreshold "cpu" <
      combinedScore (runEnsembleDetection mEmit tenFives) 0 := by
    rw [emit_score, warningThreshold_cpu]
    norm_num
  constructor
  · rw [detectAnomalies_ok _ _ _ _ _ tenFives (by norm_num [tenFives]) rfl]
    have hz : ((tenFives.zip [0]).enum) = [(0, ((5 : ℝ), (0 : ℕ)))] := rfl
    rw [hz]
    simp only [List.filterMap_cons, List.filterMap_nil]
    rw [if_pos hcond]
    simp
  · rw [List.all_eq_true]
    intro r hrmem
    have h := detect_severity_strict_threshold (fun v => Except.ok v) mEmit
      "cpu" tenFives [0] r hrmem
    simp [h.1, h.2.2.2.2.2]

/-- C10 (amended): `detect_anomalies` is a total function of its inputs
(no exception reaches the caller); a preprocessing failure is caught by
the outer handler and the call returns the empty list; a model failure
inside the ensemble is caught in `_run_ensemble_detection` and only
truncates the vote list at the failing model — detection continues with
the surviving votes and may still produce results. -/
theorem detect_failure_containment (pre : List ℝ → Except String (List ℝ))
    (m : ClassicalModels) (metric : String) (values : List ℝ)
    (timestamps : List ℕ) :
    (∀ e, pre values = Except.error e →
      detectAnomalies pre m metric values timestamps = []) ∧
    (∀ data iso ae e, m.isoForest data = Except.ok iso →
      m.autoencoder data = Except.ok ae → m.vae data = Except.error e →
      runEnsembleDetection m data =
        [⟨"isolation_forest", iso.map (fun s => -s), 0.3⟩,
         ⟨"autoencoder", ae, 0.3⟩]) := by
  constructor
  · intro e hpre
    unfold detectAnomalies
    split
    · rfl
    · rw [hpre]
  · intro data iso ae e h1 h2 h3
    simp [runEnsembleDetection, h1, h2, h3]

/-- Counterexample to C10 as stated: when the VAE model raises, the
failure is caught, but `detect_anomalies` does **not** return the empty
list — the two surviving votes still flag the point. -/
theorem detect_partial_ensemble_cex :
    mVaeFails.vae tenFives = Except.error "vae failure" ∧
    detectAnomalies (fun v => Except.ok v) mVaeFails "cpu" tenFives [0] ≠ [] := by
  refine ⟨rfl, ?_⟩
  have hscore : combinedScore (runEnsembleDetection mVaeFails tenFives) 0 = 1 := by
    simp [combinedScore, scoresAt, runEnsembleDetection, mVaeFails, negOnes,
      tenOnes, npMean]
  rw [detectAnomalies_ok _ _ _ _ _ tenFives (by norm_num [tenFives]) rfl]
  have hz : ((tenFives.zip [0]).enum) = [(0, ((5 : ℝ), (0 : ℕ)))] := rfl
  rw [hz]
  simp only [List.filterMap_cons, List.filterMap_nil]
  rw [if_pos (by rw [hscore, warningThreshold_cpu]; norm_num)]
  simp

/-- Witness for the amended C10 at concrete inputs: a failing
preprocessor yields the empty list, and a failing VAE leaves exactly the
two earlier votes. -/
theorem detect_failure_containment_witness :
    detectAnomalies (fun _ => Except.error "pre failure") mEmit "cpu"
      tenFives [0] = [] ∧
    runEnsembleDetection mVaeFails tenFives =
      [⟨"isolation_forest", negOnes.map (fun s => -s), 0.3⟩,
       ⟨"autoencoder", tenOnes, 0.3⟩] :=
  ⟨(detect_failure_containment (fun _ => Except.error "pre failure") mEmit
      "cpu" tenFives [0]).1 "pre failure" rfl,
   (detect_failure_containment (fun v => Except.ok v) mVaeFails
      "cpu" tenFives [0]).2 tenFives negOnes tenOnes "vae failure" rfl rfl rfl⟩

/-- C9 (amended): a collection error is caught at cycle level — the
cycle is abandoned with no buffer advanced and no results (the loop,
receiving a value rather than an exception, continues).  A scoring
exception is caught **inside** `detect_anomalies`, yielding an empty
result for that metric, but the cycle completes and buffers are still
advanced by `_update_models`. -/
theorem cycle_error_recovery (collect : Except String (List (String × MetricData)))
    (pre : List ℝ → Except String (List ℝ)) (m : ClassicalModels)
    (st : CycleState) :
    (∀ e, collect = Except.error e →
      runDetectionCycle collect pre m st = (st, [])) ∧
    (∀ metrics, collect = Except.ok metrics →
      (runDetectionCycle collect pre m st).1.buffers =
        updateModels st.buffers metrics) ∧
    (∀ name values ts e, pre values = Except.error e →
      detectAnomalies pre m name values ts = []) := by
  refine ⟨?_, ?_, ?_⟩
  · intro e h
    subst h
    rfl
  · intro metrics h
    subst h
    rfl
  · intro name values ts e hpre
    unfold detectAnomalies
    split
    · rfl
    · rw [hpre]

/-- Counterexample to C9 as stated: a cycle in which a scoring exception
occurs (the preprocessor raises) still advances the metric's rolling
buffer — the cycle is not abandoned. -/
theorem cycle_scoring_failure_cex :
    (runDetectionCycle (Except.ok [("cpu", ⟨tenFives, [0]⟩)])
      (fun _ => Except.error "scoring failure") mEmit
      ⟨[("cpu", [])]⟩).1.buffers = [("cpu", tenFives)] ∧
    (runDetectionCycle (Except.ok [("cpu", ⟨tenFives, [0]⟩)])
      (fun _ => Except.error "scoring failure") mEmit
      ⟨[("cpu", [])]⟩).2 = [] := by
  have hdet : detectAnomalies (fun _ => Except.error "scoring failure") mEmit
      "cpu" tenFives [0] = [] := by
    unfold detectAnomalies
    rw [if_neg (by norm_num [tenFives])]
  have hcyc : runDetectionCycle (Except.ok [("cpu", ⟨tenFives, [0]⟩)])
      (fun _ => Except.error "scoring failure") mEmit ⟨[("cpu", [])]⟩ =
      (⟨updateModels [("cpu", [])] [("cpu", ⟨tenFives, [0]⟩)]⟩,
        ([("cpu", (⟨tenFives, [0]⟩ : MetricData))]).flatMap
          (fun md => detectAnomalies (fun _ => Except.error "scoring failure")
            mEmit md.1 md.2.values md.2.timestamps)) := rfl
  rw [hcyc]
  constructor
  · simp [updateModels, updateBuffer, bufferSize, tenFives]
  · simp [hdet]

/-- Witness for the amended C9: a failed collection leaves the state
untouched; a successful collection advances the buffers; a failing
preprocessor yields an empty per-metric result. -/
theorem cycle_error_recovery_witness :
    runDetectionCycle (Except.error "collector down") (fun v => Except.ok v)
      mEmit ⟨[("cpu", [])]⟩ = (⟨[("cpu", [])]⟩, []) ∧
    (runDetectionCycle (Except.ok [("cpu", ⟨tenFives, [0]⟩)])
      (fun v => Except.ok v) mEmit ⟨[("cpu", [])]⟩).1.buffers =
      updateModels [("cpu", [])] [("cpu", ⟨tenFives, [0]⟩)] ∧
    detectAnomalies (fun _ => Except.error "scoring failure") mEmit "cpu"
      tenFives [0] = [] :=
  ⟨(cycle_error_recovery (Except.error "collector down") (fun v => Except.ok v)
      mEmit ⟨[("cpu", [])]⟩).1 "collector down" rfl,
   (cycle_error_recovery (Except.ok [("cpu", ⟨tenFives, [0]⟩)])
      (fun v => Except.ok v) mEmit ⟨[("cpu", [])]⟩).2.1 _ rfl,
   (cycle_error_recovery (Except.ok []) (fun _ => Except.error "scoring failure")
      mEmit ⟨[]⟩).2.2 "cpu" tenFives [0] "scoring failure" rfl⟩

lemma affBuf_length (a c : ℝ) (n : ℕ) : (affBuf a c n).length = n := by
  simp [affBuf]

lemma affBuf_getD (a c : ℝ) (n i : ℕ) (h : i < n) :
    (affBuf a c n).getD i 0 = a + c * i := by
  rw [affBuf, List.getD_eq_getElem _ _ (by simpa using h)]
  simp

lemma affBuf_drop (a c : ℝ) (k n : ℕ) :
    (affBuf a c n).drop k =
      (List.range (n - k)).map (fun i : ℕ => a + c * ((k + i : ℕ) : ℝ)) := by
  apply List.ext_getElem
  · simp [affBuf]
  · intro i h1 h2
    simp only [affBuf, List.getElem_drop, List.getElem_map, List.getElem_range]

/-- C7: a buffer with fewer than 50 values yields an empty prediction
sequence (and no error, the function being total); for a buffer of 100
linearly increasing values with constant first difference `c`, the
predicted value at horizon step `h0 + 1` is the last buffered value
`a + 99 c` plus `c * (h0 + 1)` — exactly, the embedding working over
`ℝ`. -/
theorem forecast_short_and_linear (buffer : List ℝ) (horizon : ℕ)
    (a c : ℝ) (h0 : ℕ) :
    (buffer.length < 50 → predictFutureAnomalies buffer horizon = []) ∧
    (h0 < horizon →
      ((predictFutureAnomalies (affBuf a c 100) horizon).map
        ModelPrediction.predicted_value).getD h0 0 =
        a + c * 99 + c * (h0 + 1 : ℕ)) := by
  constructor
  · intro h
    simp [predictFutureAnomalies, h]
  · intro hh
    have hlen : (affBuf a c 100).length = 100 := affBuf_length a c 100
    have hrec : takeLast 100 (affBuf a c 100) = affBuf a c 100 := by
      simp [takeLast, hlen]
    have hwin : takeLast 10 (affBuf a c 100) =
        (List.range 10).map (fun i : ℕ => a + c * ((90 + i : ℕ) : ℝ)) := by
      unfold takeLast
      rw [hlen, show (100 : ℕ) - 10 = 90 from rfl, affBuf_drop]
    have htrend : npMean (npDiff (takeLast 10 (affBuf a c 100))) = c := by
      rw [hwin, show List.range 10 = [0, 1, 2, 3, 4, 5, 6, 7, 8, 9] from rfl]
      simp [npDiff, npMean]
      ring
    have hlast : (affBuf a c 100).getD ((affBuf a c 100).length - 1) 0 =
        a + c * 99 := by
      rw [hlen]
      simpa using affBuf_getD a c 100 99 (by norm_num)
    unfold predictFutureAnomalies
    rw [if_neg (by rw [hlen]; norm_num), hrec, if_pos (by rw [hlen]; norm_num)]
    rw [List.map_map, List.getD_eq_getElem _ _ (by simpa using hh)]
    simp only [List.getElem_map, List.getElem_range, Function.comp]
    rw [htrend, hlast]

/-- Witness for C7: a three-point buffer forecasts nothing; the linear
buffer starting at 0 with slope 1 predicts 100 at the first horizon
step. -/
theorem forecast_short_and_linear_witness :
    (([1, 2, 3] : List ℝ).length < 50 ∧
      predictFutureAnomalies [1, 2, 3] 24 = []) ∧
    ((0 : ℕ) < 1 ∧
      ((predictFutureAnomalies (affBuf 0 1 100) 1).map
        ModelPrediction.predicted_value).getD 0 0 = 0 + 1 * 99 + 1 * ((0 : ℕ) + 1 : ℕ)) :=
  ⟨⟨by norm_num, (forecast_short_and_linear [1, 2, 3] 24 0 1 0).1 (by norm_num)⟩,
   ⟨by norm_num, (forecast_short_and_linear [1, 2, 3] 1 0 1 0).2 (by norm_num)⟩⟩

lemma getD_map_range (g : ModelPrediction → ℝ) (f : ℕ → ModelPrediction)
    (n i : ℕ) (h : i < n) :
    (((List.range n).map f).map g).getD i 0 = g (f i) := by
  rw [List.map_map, List.getD_eq_getElem _ _ (by simpa using h)]
  simp

/-- C8 (amended): the anomaly score attached to each forecast step is
`tanh(|predicted - mean(w)| / (std(w) + 1e-8) / 3)` where `w` is the
window of the **last 100** buffered values (`recent_data`), not the
entire rolling buffer; the two coincide exactly when the buffer holds at
most 100 values. -/
theorem forecast_score_window (buffer : List ℝ) (horizon h0 : ℕ)
    (hlen : ¬ buffer.length < 50) (hh : h0 < horizon) :
    (((predictFutureAnomalies buffer horizon).map
        ModelPrediction.anomaly_score).getD h0 0 =
      claimedPredictionScore (takeLast 100 buffer)
        (((predictFutureAnomalies buffer horizon).map
          ModelPrediction.predicted_value).getD h0 0)) ∧
    (buffer.length ≤ 100 → takeLast 100 buffer = buffer) := by
  constructor
  · unfold predictFutureAnomalies
    rw [if_neg hlen]
    have h10 : 10 ≤ (takeLast 100 buffer).length := by
      simp only [takeLast, List.length_drop]
      omega
    rw [if_pos h10]
    rw [getD_map_range ModelPrediction.anomaly_score _ horizon h0 hh,
      getD_map_range ModelPrediction.predicted_value _ horizon h0 hh]
    rfl
  · intro h
    simp [takeLast, Nat.sub_eq_zero_of_le h]

/-- Counterexample to C8 as stated: with a 101-element buffer whose
oldest element is an outlier, the score the source computes (over the
last 100 values, all zero) is `tanh 0 = 0`, while the claim's formula
over the **entire** buffer is strictly positive. -/
theorem forecast_score_window_cex :
    (((predictFutureAnomalies ((100 : ℝ) :: zeros100) 1).map
        ModelPrediction.anomaly_score).getD 0 0 = 0) ∧
    0 < claimedPredictionScore ((100 : ℝ) :: zeros100)
      (((predictFutureAnomalies ((100 : ℝ) :: zeros100) 1).map
        ModelPrediction.predicted_value).getD 0 0) := by
  have hlen : ((100 : ℝ) :: zeros100).length = 101 := by
    rw [zeros100, List.length_cons, List.length_replicate]
  have htake : takeLast 100 ((100 : ℝ) :: zeros100) = zeros100 := by
    simp only [takeLast, hlen]
    norm_num
  have hlenz : zeros100.length = 100 := by
    rw [zeros100, List.length_replicate]
  have hmean0 : npMean zeros100 = 0 := by
    rw [npMean, zeros100, List.sum_replicate]
    simp
  have hstd0 : npStd zeros100 = 0 := by
    have hv : npVar zeros100 = 0 := by
      rw [npVar, hmean0]
      rw [zeros100, List.map_replicate, List.sum_replicate]
      simp
    rw [npStd, hv, Real.sqrt_zero]
  have hwin : takeLast 10 zeros100 = List.replicate 10 (0 : ℝ) := by
    rw [takeLast, hlenz, zeros100, List.drop_replicate]
  have hdiff : npDiff (List.replicate 10 (0 : ℝ)) = List.replicate 9 (0 : ℝ) := by
    rw [npDiff, show (List.replicate 10 (0 : ℝ)).tail = List.replicate 9 0 from rfl,
      List.zipWith_replicate]
    norm_num
  have htrend : npMean (npDiff (takeLast 10 zeros100)) = 0 := by
    rw [hwin, hdiff, npMean, List.sum_replicate]
    simp
  have hlast : zeros100.getD (zeros100.length - 1) 0 = 0 := by
    rw [hlenz, List.getD_eq_getElem _ _ (by rw [hlenz]; norm_num)]
    simp [zeros100]
  have hpv : ((predictFutureAnomalies ((100 : ℝ) :: zeros100) 1).map
      ModelPrediction.predicted_value).getD 0 0 = 0 := by
    unfold predictFutureAnomalies
    rw [if_neg (by rw [hlen]; norm_num), htake,
      if_pos (by rw [hlenz]; norm_num),
      getD_map_range ModelPrediction.predicted_value _ 1 0 (by norm_num)]
    show zeros100.getD (zeros100.length - 1) 0 +
      npMean (npDiff (takeLast 10 zeros100)) * ((0 : ℕ) + 1 : ℕ) = 0
    rw [htrend, hlast]
    simp
  constructor
  · unfold predictFutureAnomalies
    rw [if_neg (by rw [hlen]; norm_num), htake,
      if_pos (by rw [hlenz]; norm_num),
      getD_map_range ModelPrediction.anomaly_score _ 1 0 (by norm_num)]
    show predictionAnomalyScore
      (zeros100.getD (zeros100.length - 1) 0 +
        npMean (npDiff (takeLast 10 zeros100)) * ((0 : ℕ) + 1 : ℕ)) zeros100 = 0
    rw [htrend, hlast, predictionAnomalyScore, hmean0, hstd0]
    norm_num [Real.tanh_zero]
  · rw [hpv]
    have hmean1 : npMean ((100 : ℝ) :: zeros100) = 100 / 101 := by
      rw [npMean, List.sum_cons, hlen, zeros100, List.sum_replicate]
      simp
    rw [claimedPredictionScore, hmean1]
    apply sre_tanh_pos
    have hs := npStd_nonneg ((100 : ℝ) :: zeros100)
    have hd : (0 : ℝ) < npStd ((100 : ℝ) :: zeros100) + 1e-8 := by
      norm_num
      linarith
    positivity

/-- Witness for the amended C8: a buffer of fifty zeros (length ≤ 100),
horizon 1, step 0. -/
theorem forecast_score_window_witness :
    (¬ (List.replicate 50 (0 : ℝ)).length < 50) ∧ (0 : ℕ) < 1 ∧
    ((((predictFutureAnomalies (List.replicate 50 (0 : ℝ)) 1).map
        ModelPrediction.anomaly_score).getD 0 0 =
      claimedPredictionScore (takeLast 100 (List.replicate 50 (0 : ℝ)))
        (((predictFutureAnomalies (List.replicate 50 (0 : ℝ)) 1).map
          ModelPrediction.predicted_value).getD 0 0)) ∧
    ((List.replicate 50 (0 : ℝ)).length ≤ 100 →
      takeLast 100 (List.replicate 50 (0 : ℝ)) = List.replicate 50 (0 : ℝ))) :=
  ⟨by simp, by norm_num,
   forecast_score_window (List.replicate 50 (0 : ℝ)) 1 0 (by simp) (by norm_num)⟩

end SreAgent
